import Mathlib

/-!
Verification of the force-publish maintenance view
(`cms/djangoapps/maintenance/views.py`) against its specification.

The view logic (`MaintenanceBaseView.validate_course_key` and
`ForcePublishCourseView.post`) is embedded directly from the source.
The storage backend it calls (`CourseKey.from_string`, `modulestore`,
`get_course_versions`, `force_publish_course`) is not part of the
sources; those pieces are modelled from the specification, as marked
in their doc comments.
-/

namespace Maintenance

/-- The fixed user-facing messages of `COURSE_KEY_ERROR_MESSAGES` in
`views.py`. -/
def empty_course_key_msg : String := "Please provide course id."

/-- `COURSE_KEY_ERROR_MESSAGES['invalid_course_key']`. -/
def invalid_course_key_msg : String := "Invalid course key."

/-- `COURSE_KEY_ERROR_MESSAGES['course_key_not_found']`. -/
def course_key_not_found_msg : String := "No matching course found."

/-- Message rendered when the backend lacks `force_publish_course`. -/
def unsupported_msg : String :=
  "Force publish course does not support old mongo style courses."

/-- Message rendered when draft and published branches already agree. -/
def already_published_msg : String := "Course is already in published state."

/-- Message rendered when `force_publish_course` returns no updated
versions. -/
def could_not_publish_msg : String := "Could not publish course."

/-- The branch-version map returned by `get_course_versions`: one
content-version identifier per branch.  Content versions are opaque
immutable identifiers; we represent them as naturals. -/
structure CourseVersions where
  draft_branch : Nat
  published_branch : Nat
deriving DecidableEq

/-- Modelled from the spec: the per-course record held by the content
store backend (VersionStore, §3/§4.1).  `supports` is the capability
probe realised in the source as `hasattr(source_store,
'force_publish_course')`; `draft_branch` and `published_branch` are the
branch pointers; `existing` is the set of content versions present in
the underlying content store (§3 requires branch pointers to name
existing versions; a version absent from `existing` models the
`VersionNotFound` backend failure of §4.1). -/
structure CourseRecord where
  supports : Bool
  draft_branch : Nat
  published_branch : Nat
  existing : List Nat
deriving DecidableEq

/-- The backend state: an association of course identities to their
records.  Modelled from the spec (VersionStore, §4.1). -/
def Store : Type := List (String × CourseRecord)

/-- Lookup of a course record by identity. -/
def Store.find? : Store → String → Option CourseRecord
  | [], _ => none
  | (k, r) :: rest, key => if k = key then some r else Store.find? rest key

/-- `modulestore().has_course`: existence check, never fails. -/
def Store.has_course (s : Store) (key : String) : Bool :=
  (s.find? key).isSome

/-- Replace the record stored under `key` (no-op when absent). -/
def Store.update : Store → String → CourseRecord → Store
  | [], _, _ => []
  | (k, r) :: rest, key, r2 =>
      if k = key then (k, r2) :: rest else (k, r) :: Store.update rest key r2

/-- Modelled from the spec: `CourseKey.from_string` (the opaque-keys
parser, outside the sources).  The spec keeps the course-key syntax out
of scope and requires only that parsing fail (`InvalidKeyError` /
`MalformedIdentity`) on text that is not a well-formed course key; we
model well-formedness minimally: the text contains no whitespace and
contains a course-key separator (a colon or a slash).  A successful
parse yields the identity itself. -/
def parse_course_key (s : String) : Option String :=
  if s.data.any (fun c => c.isWhitespace) then none
  else if s.data.any (fun c => c = ':' || c = '/') then some s else none

/-- The failure cases of `validate_course_key`: the generic
`Exception` raised on an empty key, the `InvalidKeyError` raised by
`CourseKey.from_string`, and the `ItemNotFoundError` raised when the
modulestore has no such course. -/
inductive ValidationError
  | emptyCourseKey
  | invalidCourseKey
  | courseKeyNotFound
deriving DecidableEq

/-- The user-facing message each validation failure carries, as mapped
by the `except` clauses of `ForcePublishCourseView.post`. -/
def ValidationError.message : ValidationError → String
  | .emptyCourseKey => empty_course_key_msg
  | .invalidCourseKey => invalid_course_key_msg
  | .courseKeyNotFound => course_key_not_found_msg

/-- `MaintenanceBaseView.validate_course_key`, embedded from the
source: an empty (or absent) course key raises with the empty-key
message; then `CourseKey.from_string` parses the text; then
`modulestore().has_course` is consulted.  On success we return the
identity together with its record.  The input is an `Option` because
`request.POST.get('course-id')` yields `None` when the parameter is
absent, and `not None` is true in Python exactly like `not ''`. -/
def validate_course_key (store : Store) (course_key : Option String) :
    Except ValidationError (String × CourseRecord) :=
  match course_key with
  | none => .error .emptyCourseKey
  | some s =>
    if s = "" then .error .emptyCourseKey
    else
      match parse_course_key s with
      | none => .error .invalidCourseKey
      | some key =>
        match Store.find? store key with
        | none => .error .courseKeyNotFound
        | some r => .ok (key, r)

/-- Modelled from the spec: `force_publish_course` on the split
modulestore (§4.1 `moveBranchPointer`): atomically repoints the
published branch to the draft branch's version and returns the
post-update map; fails (returns nothing, `VersionNotFound`) when the
target version does not exist in the content store. -/
def force_publish_course (store : Store) (key : String) (r : CourseRecord) :
    Option (Store × CourseVersions) :=
  if r.draft_branch ∈ r.existing then
    some (Store.update store key { r with published_branch := r.draft_branch },
          { draft_branch := r.draft_branch, published_branch := r.draft_branch })
  else none

/-- The view's result context (`self.context` of `MaintenanceBaseView`
plus the fields `ForcePublishCourseView` adds): the `error` flag, the
`msg` string, the current and updated version maps (`[]`, i.e. `none`,
until set), and the echoed form data. -/
structure ResultContext where
  error : Bool
  msg : String
  current_versions : Option CourseVersions
  updated_versions : Option CourseVersions
  course_id : Option String
  is_dry_run : Bool
deriving DecidableEq

/-- `ForcePublishCourseView.post`, embedded from the source.  Takes the
backend state and the two request parameters (`course-id` and
`dry-run`, each absent or a string) and returns the rendered context
together with the post-call backend state.  `is_dry_run` is
`bool(request.POST.get('dry-run'))`: true exactly for a present,
non-empty parameter value. -/
def force_publish_post (store : Store) (course_id : Option String)
    (dry_run : Option String) : ResultContext × Store :=
  let is_dry_run := !(dry_run.getD "").isEmpty
  let base : ResultContext :=
    { error := false, msg := "", current_versions := none,
      updated_versions := none, course_id := course_id,
      is_dry_run := is_dry_run }
  match validate_course_key store course_id with
  | .error e => ({ base with error := true, msg := e.message }, store)
  | .ok (key, r) =>
    if !r.supports then
      ({ base with msg := unsupported_msg }, store)
    else
      let current : CourseVersions :=
        { draft_branch := r.draft_branch, published_branch := r.published_branch }
      if current.published_branch = current.draft_branch then
        ({ base with msg := already_published_msg }, store)
      else
        let base2 := { base with current_versions := some current }
        if is_dry_run then (base2, store)
        else
          match force_publish_course store key r with
          | none => ({ base2 with msg := could_not_publish_msg }, store)
          | some (store2, updated) =>
            ({ base2 with updated_versions := some updated }, store2)

/-! ### Concurrency model for the compare-then-move sequence (§5) -/

/-- Outcome of one concurrent force-publish invocation. -/
inductive ConcOutcome
  | noOpAlreadyPublished
  | applied (previous updated : CourseVersions)
  | concurrentModification
deriving DecidableEq

/-- Phase of one invocation: about to read and compare, about to move
with the snapshot it read, or finished. -/
inductive OpPhase
  | toRead
  | toMove (snap : CourseVersions)
  | finished (out : ConcOutcome)
deriving DecidableEq

/-- Modelled from the spec (§5): one atomic step of an invocation
against the shared per-course branch-pointer record.  The read step
compares the branches and either stops as a no-op or records the
snapshot; the move step performs the mandated optimistic check — if the
record no longer matches the snapshot read at comparison time, the
operation fails with `concurrentModification` instead of applying a
stale update; otherwise the published branch is atomically repointed to
the snapshot's draft version. -/
def conc_step (v : CourseVersions) : OpPhase → OpPhase × CourseVersions
  | .toRead =>
      if v.published_branch = v.draft_branch then
        (.finished .noOpAlreadyPublished, v)
      else (.toMove v, v)
  | .toMove snap =>
      if v = snap then
        (.finished (.applied snap
            { draft_branch := snap.draft_branch,
              published_branch := snap.draft_branch }),
         { draft_branch := snap.draft_branch,
           published_branch := snap.draft_branch })
      else (.finished .concurrentModification, v)
  | .finished out => (.finished out, v)

/-- A configuration of two concurrent invocations over the shared
per-course record. -/
structure ConcConfig where
  shared : CourseVersions
  op1 : OpPhase
  op2 : OpPhase
deriving DecidableEq

/-- Run a schedule: `true` steps the first invocation, `false` the
second.  Steps of a finished invocation leave everything unchanged, so
this covers every interleaving of the two invocations' steps. -/
def conc_run : List Bool → ConcConfig → ConcConfig
  | [], c => c
  | b :: rest, c =>
    if b then
      conc_run rest { shared := (conc_step c.shared c.op1).2,
                      op1 := (conc_step c.shared c.op1).1, op2 := c.op2 }
    else
      conc_run rest { shared := (conc_step c.shared c.op2).2,
                      op1 := c.op1, op2 := (conc_step c.shared c.op2).1 }

/-- An invocation that has not yet observed any move: it is either
still to read, or holds the initial snapshot. -/
def unmoved (v : CourseVersions) (p : OpPhase) : Prop :=
  p = .toRead ∨ p = .toMove v

/-- The phases the losing invocation can be in once the winning one has
applied its move. -/
def loser (v : CourseVersions) (p : OpPhase) : Prop :=
  p = .toRead ∨ p = .toMove v ∨ p = .finished .concurrentModification ∨
    p = .finished .noOpAlreadyPublished

/-- Reachability invariant for two concurrent invocations started on a
diverged record `v`: either nobody has moved yet and the record still
reads `v`, or exactly one invocation has applied the move, the record
now has both branches at `v`'s draft version, and the other invocation
is in a losing phase. -/
def ConcInv (v : CourseVersions) (c : ConcConfig) : Prop :=
  (c.shared = v ∧ unmoved v c.op1 ∧ unmoved v c.op2) ∨
  (c.shared = { draft_branch := v.draft_branch, published_branch := v.draft_branch } ∧
    ((c.op1 = .finished (.applied v
        { draft_branch := v.draft_branch, published_branch := v.draft_branch }) ∧
      loser v c.op2) ∨
     (c.op2 = .finished (.applied v
        { draft_branch := v.draft_branch, published_branch := v.draft_branch }) ∧
      loser v c.op1)))


/-! ### Witness data -/

/-- A one-course backend used to instantiate the theorems on concrete
inputs: a supported (split) course whose draft branch (version 1) has
diverged from its published branch (version 0), both versions existing
in the content store. -/
def wStore : Store :=
  [("course-v1:e+d+X",
    { supports := true, draft_branch := 1, published_branch := 0, existing := [0, 1] })]

/-- A supported course already in published state (draft and published
branches agree on version 2). -/
def wStoreAgreed : Store :=
  [("course-v1:e+d+X",
    { supports := true, draft_branch := 2, published_branch := 2, existing := [2] })]

/-- An old-mongo-style course: the backend lacks the
`force_publish_course` capability. -/
def wStoreOldMongo : Store :=
  [("Org/Course/Run",
    { supports := false, draft_branch := 5, published_branch := 3, existing := [3, 5] })]

/-- A diverged course whose draft version (4) is missing from the
content store, so the branch-pointer move fails. -/
def wStoreVanished : Store :=
  [("course-v1:e+d+X",
    { supports := true, draft_branch := 4, published_branch := 2, existing := [2] })]

/-- Whether course-key resolution fails for the given input: the
condition under which `ForcePublishCourseView.post` takes one of its
`except` branches. -/
def resolution_failed (store : Store) (course_id : Option String) : Bool :=
  match validate_course_key store course_id with
  | .error _ => true
  | .ok _ => false

/-! ### Branch characterisations of the embedded view -/

/-- Updating a present key makes `find?` return the new record. -/
theorem Store.find?_update_self (s : Store) (key : String) (r r2 : CourseRecord)
    (h : s.find? key = some r) : (s.update key r2).find? key = some r2 := by
  induction s with
  | nil => simp [Store.find?] at h
  | cons kv rest ih =>
    obtain ⟨k, rr⟩ := kv
    by_cases hk : k = key
    · simp [Store.update, Store.find?, hk]
    · simp [Store.update, Store.find?, hk] at h ⊢
      exact ih h

/-- Successful validation: non-empty text that parses and names a
stored course. -/
theorem validate_ok (store : Store) (cid key : String) (r : CourseRecord)
    (hne : cid ≠ "") (hp : parse_course_key cid = some key)
    (hr : Store.find? store key = some r) :
    validate_course_key store (some cid) = .ok (key, r) := by
  simp [validate_course_key, hne, hp, hr]

/-- The context rendered on a validation failure. -/
theorem post_error_eq (store : Store) (course_id : Option String)
    (dry_run : Option String) (e : ValidationError)
    (hv : validate_course_key store course_id = .error e) :
    force_publish_post store course_id dry_run =
      ({ error := true, msg := e.message, current_versions := none,
         updated_versions := none, course_id := course_id,
         is_dry_run := !(dry_run.getD "").isEmpty }, store) := by
  simp [force_publish_post, hv]

/-- The context rendered on an unsupported (old mongo) backend. -/
theorem post_unsupported_eq (store : Store) (course_id : Option String)
    (dry_run : Option String) (key : String) (r : CourseRecord)
    (hv : validate_course_key store course_id = .ok (key, r))
    (hs : r.supports = false) :
    force_publish_post store course_id dry_run =
      ({ error := false, msg := unsupported_msg, current_versions := none,
         updated_versions := none, course_id := course_id,
         is_dry_run := !(dry_run.getD "").isEmpty }, store) := by
  simp [force_publish_post, hv, hs]

/-- The context rendered when draft and published already agree. -/
theorem post_already_eq (store : Store) (course_id : Option String)
    (dry_run : Option String) (key : String) (r : CourseRecord)
    (hv : validate_course_key store course_id = .ok (key, r))
    (hs : r.supports = true)
    (hpub : r.published_branch = r.draft_branch) :
    force_publish_post store course_id dry_run =
      ({ error := false, msg := already_published_msg, current_versions := none,
         updated_versions := none, course_id := course_id,
         is_dry_run := !(dry_run.getD "").isEmpty }, store) := by
  simp [force_publish_post, hv, hs, hpub]

/-- The context rendered on a dry run over diverged branches. -/
theorem post_dry_run_eq (store : Store) (course_id : Option String)
    (dry_run : Option String) (key : String) (r : CourseRecord)
    (hv : validate_course_key store course_id = .ok (key, r))
    (hs : r.supports = true)
    (hpub : r.published_branch ≠ r.draft_branch)
    (hdry : (dry_run.getD "").isEmpty = false) :
    force_publish_post store course_id dry_run =
      ({ error := false, msg := "",
         current_versions := some { draft_branch := r.draft_branch,
                                    published_branch := r.published_branch },
         updated_versions := none, course_id := course_id,
         is_dry_run := true }, store) := by
  simp [force_publish_post, hv, hs, hpub, hdry]

/-- The context and post-state of a committed force publish when the
draft version exists in the content store. -/
theorem post_commit_eq (store : Store) (course_id : Option String)
    (dry_run : Option String) (key : String) (r : CourseRecord)
    (hv : validate_course_key store course_id = .ok (key, r))
    (hs : r.supports = true)
    (hpub : r.published_branch ≠ r.draft_branch)
    (hdry : (dry_run.getD "").isEmpty = true)
    (hex : r.draft_branch ∈ r.existing) :
    force_publish_post store course_id dry_run =
      ({ error := false, msg := "",
         current_versions := some { draft_branch := r.draft_branch,
                                    published_branch := r.published_branch },
         updated_versions := some { draft_branch := r.draft_branch,
                                    published_branch := r.draft_branch },
         course_id := course_id, is_dry_run := false },
       store.update key { r with published_branch := r.draft_branch }) := by
  simp [force_publish_post, hv, hs, hpub, hdry, force_publish_course, hex]

/-- The context rendered when the branch-pointer move fails. -/
theorem post_move_failed_eq (store : Store) (course_id : Option String)
    (dry_run : Option String) (key : String) (r : CourseRecord)
    (hv : validate_course_key store course_id = .ok (key, r))
    (hs : r.supports = true)
    (hpub : r.published_branch ≠ r.draft_branch)
    (hdry : (dry_run.getD "").isEmpty = true)
    (hex : r.draft_branch ∉ r.existing) :
    force_publish_post store course_id dry_run =
      ({ error := false, msg := could_not_publish_msg,
         current_versions := some { draft_branch := r.draft_branch,
                                    published_branch := r.published_branch },
         updated_versions := none, course_id := course_id,
         is_dry_run := false }, store) := by
  simp [force_publish_post, hv, hs, hpub, hdry, force_publish_course, hex]

/-- The dry-run flag echoed in the context is the truthiness of the
request parameter, on every path. -/
theorem post_is_dry_run_eq (store : Store) (course_id dry_run : Option String) :
    (force_publish_post store course_id dry_run).1.is_dry_run =
      !(dry_run.getD "").isEmpty := by
  cases hv : validate_course_key store course_id with
  | error e => rw [post_error_eq store course_id dry_run e hv]
  | ok p =>
    obtain ⟨key, r⟩ := p
    cases hs : r.supports with
    | false => rw [post_unsupported_eq store course_id dry_run key r hv hs]
    | true =>
      by_cases hpub : r.published_branch = r.draft_branch
      · rw [post_already_eq store course_id dry_run key r hv hs hpub]
      · cases hdry : (dry_run.getD "").isEmpty with
        | false =>
          rw [post_dry_run_eq store course_id dry_run key r hv hs hpub hdry]
          rfl
        | true =>
          by_cases hex : r.draft_branch ∈ r.existing
          · rw [post_commit_eq store course_id dry_run key r hv hs hpub hdry hex]
            rfl
          · rw [post_move_failed_eq store course_id dry_run key r hv hs hpub hdry hex]
            rfl

/-- The error flag is set exactly when course-key resolution fails, on
every path. -/
theorem post_error_flag_eq (store : Store) (course_id dry_run : Option String) :
    (force_publish_post store course_id dry_run).1.error =
      resolution_failed store course_id := by
  cases hv : validate_course_key store course_id with
  | error e =>
    rw [post_error_eq store course_id dry_run e hv]
    simp [resolution_failed, hv]
  | ok p =>
    obtain ⟨key, r⟩ := p
    have hres : resolution_failed store course_id = false := by
      simp [resolution_failed, hv]
    cases hs : r.supports with
    | false => rw [post_unsupported_eq store course_id dry_run key r hv hs, hres]
    | true =>
      by_cases hpub : r.published_branch = r.draft_branch
      · rw [post_already_eq store course_id dry_run key r hv hs hpub, hres]
      · cases hdry : (dry_run.getD "").isEmpty with
        | false =>
          rw [post_dry_run_eq store course_id dry_run key r hv hs hpub hdry, hres]
        | true =>
          by_cases hex : r.draft_branch ∈ r.existing
          · rw [post_commit_eq store course_id dry_run key r hv hs hpub hdry hex, hres]
          · rw [post_move_failed_eq store course_id dry_run key r hv hs hpub hdry hex, hres]

/-! ### Concurrency lemmas -/

/-- The repointed record differs from a diverged record. -/
theorem repointed_ne (v : CourseVersions)
    (hd : v.published_branch ≠ v.draft_branch) :
    ({ draft_branch := v.draft_branch, published_branch := v.draft_branch } :
      CourseVersions) ≠ v := by
  intro h
  apply hd
  rw [← h]

/-- Stepping the first invocation preserves the reachability
invariant. -/
theorem conc_step_preserves_1 (v : CourseVersions)
    (hd : v.published_branch ≠ v.draft_branch) (c : ConcConfig)
    (h : ConcInv v c) :
    ConcInv v { shared := (conc_step c.shared c.op1).2,
                op1 := (conc_step c.shared c.op1).1, op2 := c.op2 } := by
  obtain ⟨sh, o1, o2⟩ := c
  rcases h with ⟨hsh, h1, h2⟩ | ⟨hsh, ⟨h1, h2⟩ | ⟨h1, h2⟩⟩ <;>
    simp only at hsh h1 h2 ⊢ <;> subst hsh
  · rcases h1 with h1 | h1 <;> subst h1
    · exact Or.inl ⟨by simp [conc_step, hd], by simp [conc_step, hd, unmoved], h2⟩
    · refine Or.inr ⟨by simp [conc_step], Or.inl ⟨by simp [conc_step], ?_⟩⟩
      rcases h2 with h2 | h2 <;> simp [loser, h2]
  · subst h1
    exact Or.inr ⟨by simp [conc_step], Or.inl ⟨by simp [conc_step], h2⟩⟩
  · subst h1
    rcases h2 with h2 | h2 | h2 | h2 <;> subst h2
    · exact Or.inr ⟨by simp [conc_step], Or.inr ⟨rfl, by simp [conc_step, loser]⟩⟩
    · refine Or.inr ⟨?_, Or.inr ⟨rfl, ?_⟩⟩
      · simp [conc_step, repointed_ne v hd]
      · simp [conc_step, repointed_ne v hd, loser]
    · exact Or.inr ⟨by simp [conc_step], Or.inr ⟨rfl, by simp [conc_step, loser]⟩⟩
    · exact Or.inr ⟨by simp [conc_step], Or.inr ⟨rfl, by simp [conc_step, loser]⟩⟩

/-- Stepping the second invocation preserves the reachability
invariant. -/
theorem conc_step_preserves_2 (v : CourseVersions)
    (hd : v.published_branch ≠ v.draft_branch) (c : ConcConfig)
    (h : ConcInv v c) :
    ConcInv v { shared := (conc_step c.shared c.op2).2,
                op1 := c.op1, op2 := (conc_step c.shared c.op2).1 } := by
  obtain ⟨sh, o1, o2⟩ := c
  rcases h with ⟨hsh, h1, h2⟩ | ⟨hsh, ⟨h1, h2⟩ | ⟨h1, h2⟩⟩ <;>
    simp only at hsh h1 h2 ⊢ <;> subst hsh
  · rcases h2 with h2 | h2 <;> subst h2
    · exact Or.inl ⟨by simp [conc_step, hd], h1, by simp [conc_step, hd, unmoved]⟩
    · refine Or.inr ⟨by simp [conc_step], Or.inr ⟨by simp [conc_step], ?_⟩⟩
      rcases h1 with h1 | h1 <;> simp [loser, h1]
  · subst h1
    rcases h2 with h2 | h2 | h2 | h2 <;> subst h2
    · exact Or.inr ⟨by simp [conc_step], Or.inl ⟨rfl, by simp [conc_step, loser]⟩⟩
    · refine Or.inr ⟨?_, Or.inl ⟨rfl, ?_⟩⟩
      · simp [conc_step, repointed_ne v hd]
      · simp [conc_step, repointed_ne v hd, loser]
    · exact Or.inr ⟨by simp [conc_step], Or.inl ⟨rfl, by simp [conc_step, loser]⟩⟩
    · exact Or.inr ⟨by simp [conc_step], Or.inl ⟨rfl, by simp [conc_step, loser]⟩⟩
  · subst h1
    exact Or.inr ⟨by simp [conc_step], Or.inr ⟨by simp [conc_step], h2⟩⟩

/-- Any schedule preserves the reachability invariant. -/
theorem conc_run_preserves (v : CourseVersions)
    (hd : v.published_branch ≠ v.draft_branch) (sched : List Bool)
    (c : ConcConfig) (h : ConcInv v c) : ConcInv v (conc_run sched c) := by
  induction sched generalizing c with
  | nil => exact h
  | cons b rest ih =>
    cases b
    · exact ih _ (conc_step_preserves_2 v hd c h)
    · exact ih _ (conc_step_preserves_1 v hd c h)

/-! ### Claim theorems -/

/-- C1: for a course whose draft and published branch versions differ,
a non-dry-run force publish on a supported backend leaves the post-call
published branch version equal to the pre-call draft branch version and
the post-call draft branch version equal to the pre-call draft branch
version (the draft pointer is unchanged). -/
theorem force_publish_moves_published_to_draft (store : Store)
    (cid key : String) (r : CourseRecord) (dry_run : Option String)
    (hne : cid ≠ "") (hp : parse_course_key cid = some key)
    (hr : Store.find? store key = some r) (hs : r.supports = true)
    (hpub : r.published_branch ≠ r.draft_branch)
    (hdry : (dry_run.getD "").isEmpty = true)
    (hex : r.draft_branch ∈ r.existing) :
    ∃ r2 : CourseRecord,
      (force_publish_post store (some cid) dry_run).2.find? key = some r2 ∧
      r2.published_branch = r.draft_branch ∧
      r2.draft_branch = r.draft_branch := by
  rw [post_commit_eq store (some cid) dry_run key r
    (validate_ok store cid key r hne hp hr) hs hpub hdry hex]
  exact ⟨{ r with published_branch := r.draft_branch },
    Store.find?_update_self store key r _ hr, rfl, rfl⟩

/-- C1 witness: the diverged one-course store, committed. -/
theorem force_publish_moves_published_to_draft_witness :
    ∃ r2 : CourseRecord,
      (force_publish_post wStore (some "course-v1:e+d+X") none).2.find?
          "course-v1:e+d+X" = some r2 ∧
      r2.published_branch = 1 ∧ r2.draft_branch = 1 :=
  force_publish_moves_published_to_draft wStore "course-v1:e+d+X" "course-v1:e+d+X"
    { supports := true, draft_branch := 1, published_branch := 0, existing := [0, 1] }
    none (by decide) (by decide) (by decide) rfl (by decide) (by decide) (by decide)

/-- C2: when draft and published branch versions agree, force publish
renders the already-published message regardless of the dry-run flag
and mutates nothing; and after a successful non-dry-run force publish a
second invocation immediately renders the already-published message and
mutates nothing. -/
theorem already_published_noop_and_idempotent (store : Store)
    (cid key : String) (r : CourseRecord) (dry_run : Option String)
    (hne : cid ≠ "") (hp : parse_course_key cid = some key)
    (hr : Store.find? store key = some r) (hs : r.supports = true) :
    (r.published_branch = r.draft_branch →
      force_publish_post store (some cid) dry_run =
        ({ error := false, msg := already_published_msg, current_versions := none,
           updated_versions := none, course_id := some cid,
           is_dry_run := !(dry_run.getD "").isEmpty }, store)) ∧
    (r.published_branch ≠ r.draft_branch →
      (dry_run.getD "").isEmpty = true →
      r.draft_branch ∈ r.existing →
      ∀ dry2 : Option String,
        (force_publish_post (force_publish_post store (some cid) dry_run).2
            (some cid) dry2).1.msg = already_published_msg ∧
        (force_publish_post (force_publish_post store (some cid) dry_run).2
            (some cid) dry2).2 =
          (force_publish_post store (some cid) dry_run).2) := by
  constructor
  · intro hpub
    exact post_already_eq store (some cid) dry_run key r
      (validate_ok store cid key r hne hp hr) hs hpub
  · intro hpub hdry hex dry2
    rw [post_commit_eq store (some cid) dry_run key r
      (validate_ok store cid key r hne hp hr) hs hpub hdry hex]
    have hr2 := Store.find?_update_self store key r
      { r with published_branch := r.draft_branch } hr
    rw [post_already_eq (store.update key { r with published_branch := r.draft_branch })
      (some cid) dry2 key { r with published_branch := r.draft_branch }
      (validate_ok _ cid key _ hne hp hr2) hs rfl]
    exact ⟨rfl, rfl⟩

/-- C2 witness: a course already in published state renders the no-op
message, and committing the diverged store then invoking again renders
it too. -/
theorem already_published_noop_and_idempotent_witness :
    (force_publish_post wStoreAgreed (some "course-v1:e+d+X") (some "on") =
      ({ error := false, msg := already_published_msg, current_versions := none,
         updated_versions := none, course_id := some "course-v1:e+d+X",
         is_dry_run := !((some "on" : Option String).getD "").isEmpty },
       wStoreAgreed)) ∧
    ((force_publish_post (force_publish_post wStore (some "course-v1:e+d+X") none).2
        (some "course-v1:e+d+X") none).1.msg = already_published_msg ∧
     (force_publish_post (force_publish_post wStore (some "course-v1:e+d+X") none).2
        (some "course-v1:e+d+X") none).2 =
       (force_publish_post wStore (some "course-v1:e+d+X") none).2) :=
  ⟨(already_published_noop_and_idempotent wStoreAgreed "course-v1:e+d+X"
      "course-v1:e+d+X"
      { supports := true, draft_branch := 2, published_branch := 2, existing := [2] }
      (some "on") (by decide) (by decide) (by decide) rfl).1 rfl,
   (already_published_noop_and_idempotent wStore "course-v1:e+d+X" "course-v1:e+d+X"
      { supports := true, draft_branch := 1, published_branch := 0, existing := [0, 1] }
      none (by decide) (by decide) (by decide) rfl).2 (by decide) (by decide)
      (by decide) none⟩

/-- C3: for a diverged course, a dry run reports the current branch
versions in the context, sets no message and no error, and leaves the
backend state untouched. -/
theorem dry_run_reports_without_mutation (store : Store) (cid key : String)
    (r : CourseRecord) (dry_run : Option String)
    (hne : cid ≠ "") (hp : parse_course_key cid = some key)
    (hr : Store.find? store key = some r) (hs : r.supports = true)
    (hpub : r.published_branch ≠ r.draft_branch)
    (hdry : (dry_run.getD "").isEmpty = false) :
    force_publish_post store (some cid) dry_run =
      ({ error := false, msg := "",
         current_versions := some { draft_branch := r.draft_branch,
                                    published_branch := r.published_branch },
         updated_versions := none, course_id := some cid,
         is_dry_run := true }, store) :=
  post_dry_run_eq store (some cid) dry_run key r
    (validate_ok store cid key r hne hp hr) hs hpub hdry

/-- C3 witness: dry run over the diverged one-course store. -/
theorem dry_run_reports_without_mutation_witness :
    force_publish_post wStore (some "course-v1:e+d+X") (some "on") =
      ({ error := false, msg := "",
         current_versions := some { draft_branch := 1, published_branch := 0 },
         updated_versions := none, course_id := some "course-v1:e+d+X",
         is_dry_run := true }, wStore) :=
  dry_run_reports_without_mutation wStore "course-v1:e+d+X" "course-v1:e+d+X"
    { supports := true, draft_branch := 1, published_branch := 0, existing := [0, 1] }
    (some "on") (by decide) (by decide) (by decide) rfl (by decide) (by decide)

/-- C4: a course stored in a backend without the force-publish
capability always renders the unsupported-backend message, with no
error flag, no version maps in the context, and no mutation — for every
dry-run value and every branch-version state (the conclusion does not
depend on the version fields, so no version read can influence it). -/
theorem unsupported_backend_always_rejected (store : Store) (cid key : String)
    (dry_run : Option String) (d p : Nat) (ex : List Nat)
    (hne : cid ≠ "") (hp : parse_course_key cid = some key)
    (hr : Store.find? store key =
      some { supports := false, draft_branch := d, published_branch := p,
             existing := ex }) :
    force_publish_post store (some cid) dry_run =
      ({ error := false, msg := unsupported_msg, current_versions := none,
         updated_versions := none, course_id := some cid,
         is_dry_run := !(dry_run.getD "").isEmpty }, store) :=
  post_unsupported_eq store (some cid) dry_run key _
    (validate_ok store cid key _ hne hp hr) rfl

/-- C4 witness: the old-mongo store, with the dry-run box ticked. -/
theorem unsupported_backend_always_rejected_witness :
    force_publish_post wStoreOldMongo (some "Org/Course/Run") (some "on") =
      ({ error := false, msg := unsupported_msg, current_versions := none,
         updated_versions := none, course_id := some "Org/Course/Run",
         is_dry_run := !((some "on" : Option String).getD "").isEmpty },
       wStoreOldMongo) :=
  unsupported_backend_always_rejected wStoreOldMongo "Org/Course/Run"
    "Org/Course/Run" (some "on") 5 3 [3, 5] (by decide) (by decide) (by decide)

/-- C5: resolution failures render their fixed messages with the error
flag set and no mutation: the empty input the empty-key message, the
unparsable input `edx` the invalid-key message, and a well-formed key
with no matching course the not-found message. -/
theorem resolution_failure_messages (store : Store) (dry_run : Option String) :
    (force_publish_post store (some "") dry_run =
      ({ error := true, msg := empty_course_key_msg, current_versions := none,
         updated_versions := none, course_id := some "",
         is_dry_run := !(dry_run.getD "").isEmpty }, store)) ∧
    (force_publish_post store (some "edx") dry_run =
      ({ error := true, msg := invalid_course_key_msg, current_versions := none,
         updated_versions := none, course_id := some "edx",
         is_dry_run := !(dry_run.getD "").isEmpty }, store)) ∧
    (∀ cid key : String, cid ≠ "" → parse_course_key cid = some key →
      Store.find? store key = none →
      force_publish_post store (some cid) dry_run =
        ({ error := true, msg := course_key_not_found_msg, current_versions := none,
           updated_versions := none, course_id := some cid,
           is_dry_run := !(dry_run.getD "").isEmpty }, store)) := by
  refine ⟨?_, ?_, ?_⟩
  · exact post_error_eq store (some "") dry_run .emptyCourseKey rfl
  · exact post_error_eq store (some "edx") dry_run .invalidCourseKey rfl
  · intro cid key hne hp hfind
    exact post_error_eq store (some cid) dry_run .courseKeyNotFound
      (by simp [validate_course_key, hne, hp, hfind])

/-- C5 witness: the three failures against the one-course store. -/
theorem resolution_failure_messages_witness :
    (force_publish_post wStore (some "") none =
      ({ error := true, msg := empty_course_key_msg, current_versions := none,
         updated_versions := none, course_id := some "",
         is_dry_run := !((none : Option String).getD "").isEmpty }, wStore)) ∧
    (force_publish_post wStore (some "edx") none =
      ({ error := true, msg := invalid_course_key_msg, current_versions := none,
         updated_versions := none, course_id := some "edx",
         is_dry_run := !((none : Option String).getD "").isEmpty }, wStore)) ∧
    (force_publish_post wStore (some "course-v1:a+b+C") none =
      ({ error := true, msg := course_key_not_found_msg, current_versions := none,
         updated_versions := none, course_id := some "course-v1:a+b+C",
         is_dry_run := !((none : Option String).getD "").isEmpty }, wStore)) :=
  ⟨(resolution_failure_messages wStore none).1,
   (resolution_failure_messages wStore none).2.1,
   (resolution_failure_messages wStore none).2.2 "course-v1:a+b+C"
     "course-v1:a+b+C" (by decide) (by decide) (by decide)⟩

/-- C7: when the comparison found diverged branches but the
branch-pointer move fails (the backend returns no updated version map,
here because the draft version vanished from the content store), the
view renders the could-not-publish message, reports no success (no
updated versions), and mutates nothing. -/
theorem move_failure_could_not_publish (store : Store) (cid key : String)
    (r : CourseRecord) (dry_run : Option String)
    (hne : cid ≠ "") (hp : parse_course_key cid = some key)
    (hr : Store.find? store key = some r) (hs : r.supports = true)
    (hpub : r.published_branch ≠ r.draft_branch)
    (hdry : (dry_run.getD "").isEmpty = true)
    (hex : r.draft_branch ∉ r.existing) :
    force_publish_post store (some cid) dry_run =
      ({ error := false, msg := could_not_publish_msg,
         current_versions := some { draft_branch := r.draft_branch,
                                    published_branch := r.published_branch },
         updated_versions := none, course_id := some cid,
         is_dry_run := false }, store) :=
  post_move_failed_eq store (some cid) dry_run key r
    (validate_ok store cid key r hne hp hr) hs hpub hdry hex

/-- C7 witness: the store whose draft version is missing. -/
theorem move_failure_could_not_publish_witness :
    force_publish_post wStoreVanished (some "course-v1:e+d+X") none =
      ({ error := false, msg := could_not_publish_msg,
         current_versions := some { draft_branch := 4, published_branch := 2 },
         updated_versions := none, course_id := some "course-v1:e+d+X",
         is_dry_run := false }, wStoreVanished) :=
  move_failure_could_not_publish wStoreVanished "course-v1:e+d+X"
    "course-v1:e+d+X"
    { supports := true, draft_branch := 4, published_branch := 2, existing := [2] }
    none (by decide) (by decide) (by decide) rfl (by decide) (by decide) (by decide)

/-- C6 counterexample: a whitespace-only course id does not yield the
empty-key error.  `validate_course_key` embeds the source's
`if not course_key`, which in Python is true only for the empty string
(and `None`); the one-space input passes that check, fails parsing, and
renders the invalid-key message instead. -/
theorem whitespace_input_not_empty_error :
    (force_publish_post ([] : Store) (some " ") none).1.msg =
      invalid_course_key_msg ∧
    invalid_course_key_msg ≠ empty_course_key_msg :=
  ⟨by decide, by decide⟩

/-- C6 amended: an absent or empty course id yields the empty-key error
(with the empty-key message, before any parse or existence check — the
outcome is the same for every backend state); a non-empty input
containing whitespace fails parsing instead and yields the invalid-key
error.  No state is mutated in either case. -/
theorem empty_input_empty_error_whitespace_invalid (store : Store)
    (dry_run : Option String) :
    ((force_publish_post store none dry_run).1.error = true ∧
     (force_publish_post store none dry_run).1.msg = empty_course_key_msg ∧
     (force_publish_post store none dry_run).2 = store) ∧
    ((force_publish_post store (some "") dry_run).1.error = true ∧
     (force_publish_post store (some "") dry_run).1.msg = empty_course_key_msg ∧
     (force_publish_post store (some "") dry_run).2 = store) ∧
    (∀ s : String, s ≠ "" → s.data.any (fun c => c.isWhitespace) = true →
      (force_publish_post store (some s) dry_run).1.error = true ∧
      (force_publish_post store (some s) dry_run).1.msg = invalid_course_key_msg ∧
      (force_publish_post store (some s) dry_run).2 = store) := by
  refine ⟨?_, ?_, ?_⟩
  · rw [post_error_eq store none dry_run .emptyCourseKey rfl]
    exact ⟨rfl, rfl, rfl⟩
  · rw [post_error_eq store (some "") dry_run .emptyCourseKey rfl]
    exact ⟨rfl, rfl, rfl⟩
  · intro s hne hws
    rw [post_error_eq store (some s) dry_run .invalidCourseKey
      (by simp [validate_course_key, hne, parse_course_key, hws])]
    exact ⟨rfl, rfl, rfl⟩

/-- C6 amended witness: absent id, empty id, and the one-space id. -/
theorem empty_input_empty_error_whitespace_invalid_witness :
    ((force_publish_post wStore none none).1.error = true ∧
     (force_publish_post wStore none none).1.msg = empty_course_key_msg ∧
     (force_publish_post wStore none none).2 = wStore) ∧
    ((force_publish_post wStore (some "") none).1.error = true ∧
     (force_publish_post wStore (some "") none).1.msg = empty_course_key_msg ∧
     (force_publish_post wStore (some "") none).2 = wStore) ∧
    ((force_publish_post wStore (some " ") none).1.error = true ∧
     (force_publish_post wStore (some " ") none).1.msg = invalid_course_key_msg ∧
     (force_publish_post wStore (some " ") none).2 = wStore) :=
  ⟨(empty_input_empty_error_whitespace_invalid wStore none).1,
   (empty_input_empty_error_whitespace_invalid wStore none).2.1,
   (empty_input_empty_error_whitespace_invalid wStore none).2.2 " "
     (by decide) (by decide)⟩

/-- C8: two concurrent non-dry-run invocations on the same diverged
course, interleaved in any order of their atomic read and move steps:
whenever both finish, exactly one reports Applied — with the true
pre-move snapshot, never a stale one — and the other reports
ConcurrentModification, or NoOpAlreadyPublished if it read after the
winner's move. -/
theorem concurrent_commits_exactly_one_applied (v : CourseVersions)
    (hd : v.published_branch ≠ v.draft_branch) (sched : List Bool)
    (o1 o2 : ConcOutcome)
    (h1 : (conc_run sched ⟨v, .toRead, .toRead⟩).op1 = .finished o1)
    (h2 : (conc_run sched ⟨v, .toRead, .toRead⟩).op2 = .finished o2) :
    (o1 = .applied v { draft_branch := v.draft_branch,
                       published_branch := v.draft_branch } ∧
      (o2 = .concurrentModification ∨ o2 = .noOpAlreadyPublished)) ∨
    (o2 = .applied v { draft_branch := v.draft_branch,
                       published_branch := v.draft_branch } ∧
      (o1 = .concurrentModification ∨ o1 = .noOpAlreadyPublished)) := by
  have hinv := conc_run_preserves v hd sched ⟨v, .toRead, .toRead⟩
    (Or.inl ⟨rfl, Or.inl rfl, Or.inl rfl⟩)
  rcases hinv with ⟨hsh, hu1, hu2⟩ | ⟨hsh, ⟨ha, hl⟩ | ⟨ha, hl⟩⟩
  · rcases hu1 with hu1 | hu1 <;> rw [h1] at hu1 <;> simp at hu1
  · left
    rw [h1] at ha
    rw [h2] at hl
    refine ⟨by injection ha, ?_⟩
    rcases hl with hl | hl | hl | hl
    · simp at hl
    · simp at hl
    · exact Or.inl (by injection hl)
    · exact Or.inr (by injection hl)
  · right
    rw [h2] at ha
    rw [h1] at hl
    refine ⟨by injection ha, ?_⟩
    rcases hl with hl | hl | hl | hl
    · simp at hl
    · simp at hl
    · exact Or.inl (by injection hl)
    · exact Or.inr (by injection hl)

/-- C8 witness: draft 1, published 0; the first invocation reads and
moves, then the second reads and steps again — the first applies, the
second is a no-op. -/
theorem concurrent_commits_exactly_one_applied_witness :
    (ConcOutcome.applied { draft_branch := 1, published_branch := 0 }
        { draft_branch := 1, published_branch := 1 } =
      .applied { draft_branch := 1, published_branch := 0 }
        { draft_branch := 1, published_branch := 1 } ∧
      (ConcOutcome.noOpAlreadyPublished = .concurrentModification ∨
       ConcOutcome.noOpAlreadyPublished = .noOpAlreadyPublished)) ∨
    (ConcOutcome.noOpAlreadyPublished =
      .applied { draft_branch := 1, published_branch := 0 }
        { draft_branch := 1, published_branch := 1 } ∧
      (ConcOutcome.applied { draft_branch := 1, published_branch := 0 }
          { draft_branch := 1, published_branch := 1 } =
        .concurrentModification ∨
       ConcOutcome.applied { draft_branch := 1, published_branch := 0 }
          { draft_branch := 1, published_branch := 1 } =
        .noOpAlreadyPublished)) :=
  concurrent_commits_exactly_one_applied
    { draft_branch := 1, published_branch := 0 } (by decide)
    [true, true, false, false]
    (.applied { draft_branch := 1, published_branch := 0 }
      { draft_branch := 1, published_branch := 1 })
    .noOpAlreadyPublished (by decide) (by decide)

/-- C9 counterexample: on the dry-run outcome the view reports the
current versions but writes no text at all into the message field: the
claim that the dry-run outcome places its text in the message field
fails. -/
theorem dry_run_outcome_has_empty_message :
    (force_publish_post wStore (some "course-v1:e+d+X") (some "on")).1.error =
      false ∧
    (force_publish_post wStore (some "course-v1:e+d+X") (some "on")).1.msg = "" ∧
    (force_publish_post wStore
        (some "course-v1:e+d+X") (some "on")).1.current_versions =
      some { draft_branch := 1, published_branch := 0 } :=
  ⟨by decide, by decide, by decide⟩

/-- C9 amended: the error flag is set exactly when course-key
resolution fails; the unsupported-backend, already-published and
could-not-publish outcomes leave it false while placing their text in
the message field, and the dry-run outcome leaves it false with an
empty message field. -/
theorem error_flag_only_for_resolution_failures (store : Store)
    (course_id dry_run : Option String) :
    ((force_publish_post store course_id dry_run).1.error =
      resolution_failed store course_id) ∧
    (∀ (key : String) (r : CourseRecord),
      validate_course_key store course_id = .ok (key, r) →
      r.supports = false →
      (force_publish_post store course_id dry_run).1.msg = unsupported_msg) ∧
    (∀ (key : String) (r : CourseRecord),
      validate_course_key store course_id = .ok (key, r) →
      r.supports = true → r.published_branch = r.draft_branch →
      (force_publish_post store course_id dry_run).1.msg =
        already_published_msg) ∧
    (∀ (key : String) (r : CourseRecord),
      validate_course_key store course_id = .ok (key, r) →
      r.supports = true → r.published_branch ≠ r.draft_branch →
      (dry_run.getD "").isEmpty = true → r.draft_branch ∉ r.existing →
      (force_publish_post store course_id dry_run).1.msg =
        could_not_publish_msg) ∧
    (∀ (key : String) (r : CourseRecord),
      validate_course_key store course_id = .ok (key, r) →
      r.supports = true → r.published_branch ≠ r.draft_branch →
      (dry_run.getD "").isEmpty = false →
      (force_publish_post store course_id dry_run).1.msg = "") := by
  refine ⟨post_error_flag_eq store course_id dry_run, ?_, ?_, ?_, ?_⟩
  · intro key r hv hs
    rw [post_unsupported_eq store course_id dry_run key r hv hs]
  · intro key r hv hs hpub
    rw [post_already_eq store course_id dry_run key r hv hs hpub]
  · intro key r hv hs hpub hdry hex
    rw [post_move_failed_eq store course_id dry_run key r hv hs hpub hdry hex]
  · intro key r hv hs hpub hdry
    rw [post_dry_run_eq store course_id dry_run key r hv hs hpub hdry]

/-- C9 amended witness: each outcome exercised on its concrete
store. -/
theorem error_flag_only_for_resolution_failures_witness :
    ((force_publish_post wStore (some "course-v1:e+d+X") none).1.error =
      resolution_failed wStore (some "course-v1:e+d+X")) ∧
    ((force_publish_post wStoreOldMongo (some "Org/Course/Run") none).1.msg =
      unsupported_msg) ∧
    ((force_publish_post wStoreAgreed (some "course-v1:e+d+X") none).1.msg =
      already_published_msg) ∧
    ((force_publish_post wStoreVanished (some "course-v1:e+d+X") none).1.msg =
      could_not_publish_msg) ∧
    ((force_publish_post wStore (some "course-v1:e+d+X") (some "on")).1.msg =
      "") :=
  ⟨(error_flag_only_for_resolution_failures wStore
      (some "course-v1:e+d+X") none).1,
   (error_flag_only_for_resolution_failures wStoreOldMongo
      (some "Org/Course/Run") none).2.1 "Org/Course/Run"
      { supports := false, draft_branch := 5, published_branch := 3,
        existing := [3, 5] } rfl rfl,
   (error_flag_only_for_resolution_failures wStoreAgreed
      (some "course-v1:e+d+X") none).2.2.1 "course-v1:e+d+X"
      { supports := true, draft_branch := 2, published_branch := 2,
        existing := [2] } rfl rfl rfl,
   (error_flag_only_for_resolution_failures wStoreVanished
      (some "course-v1:e+d+X") none).2.2.2.1 "course-v1:e+d+X"
      { supports := true, draft_branch := 4, published_branch := 2,
        existing := [2] } rfl rfl (by decide) (by decide) (by decide),
   (error_flag_only_for_resolution_failures wStore
      (some "course-v1:e+d+X") (some "on")).2.2.2.2 "course-v1:e+d+X"
      { supports := true, draft_branch := 1, published_branch := 0,
        existing := [0, 1] } rfl rfl (by decide) (by decide)⟩

/-- C10: the dry-run mode echoed in the context is the truthiness of
the request parameter: true exactly for a present, non-empty string
value; an absent parameter or the empty string selects commit mode. -/
theorem dry_run_flag_is_truthiness (store : Store)
    (course_id dry_run : Option String) :
    (force_publish_post store course_id dry_run).1.is_dry_run = true ↔
      ∃ s : String, dry_run = some s ∧ s ≠ "" := by
  rw [post_is_dry_run_eq]
  cases dry_run with
  | none =>
    simp
    decide
  | some s =>
    simp
    rw [Bool.eq_false_iff]
    exact not_congr (String.isEmpty_iff s)

end Maintenance
